import Mathlib

/-!
# Verification of the iot_platform authentication subsystem

Shallow embedding of the authentication/token-lifecycle core of the
`iot_platform` Express application: the password-strength evaluator and
in-memory rate limiter (`src/utils/security.js`), the JWT utilities
(`src/utils/jwt.js`), the user model (`src/models/user.js`) and the
authentication middleware chain (`src/middleware/auth.js`).

Pure functions are translated directly; the stateful rate limiter is
translated into explicit state passing over an association list standing
for the JavaScript `Map`; the signing library (`jsonwebtoken`) is
modelled with an idealized unforgeable MAC: the signature of a token is
the pair (payload, secret), and signature verification is equality with
that pair.  Times are integer milliseconds (rate limiter) or integer
Unix seconds (tokens), passed explicitly where the source reads a clock.
-/

set_option maxRecDepth 8192

/- ## String helpers (JavaScript string / regex primitives) -/

/-- Character-wise lowercasing; models `String.prototype.toLowerCase`
on the ASCII data this application handles. -/
def toLowerStr (s : String) : String := String.mk (s.data.map Char.toLower)

/-- `leadsWith hay need` holds when `need` is an initial run of `hay`. -/
def leadsWith : List Char → List Char → Bool
  | _, [] => true
  | [], _ :: _ => false
  | a :: as, b :: bs => a = b && leadsWith as bs

/-- `hasSub hay need`: `need` occurs contiguously inside `hay`; models
`String.prototype.includes` and regex matching of literal alternatives. -/
def hasSub : List Char → List Char → Bool
  | [], need => need.isEmpty
  | a :: rest, need => leadsWith (a :: rest) need || hasSub rest need

/-- Substring test on strings. -/
def stringIncludes (hay need : String) : Bool := hasSub hay.toList need.toList

theorem leadsWith_iff (need hay : List Char) :
    leadsWith hay need = true ↔ ∃ rest, hay = need ++ rest := by
  induction need generalizing hay with
  | nil => simp [leadsWith]
  | cons b bs ih =>
    cases hay with
    | nil => simp [leadsWith]
    | cons a as =>
      simp only [leadsWith, Bool.and_eq_true, decide_eq_true_eq, ih, List.cons_append,
        List.cons.injEq]
      constructor
      · rintro ⟨rfl, rest, rfl⟩; exact ⟨rest, rfl, rfl⟩
      · rintro ⟨rest, rfl, rfl⟩; exact ⟨rfl, rest, rfl⟩

theorem hasSub_iff (hay need : List Char) :
    hasSub hay need = true ↔ ∃ l1 l2, hay = l1 ++ need ++ l2 := by
  induction hay with
  | nil =>
    simp only [hasSub, List.isEmpty_iff]
    constructor
    · rintro rfl; exact ⟨[], [], rfl⟩
    · rintro ⟨l1, l2, h⟩
      have h' := h.symm
      simp only [List.append_eq_nil, List.append_assoc] at h'
      exact h'.2.1
  | cons a rest ih =>
    simp only [hasSub, Bool.or_eq_true, ih, leadsWith_iff]
    constructor
    · rintro (⟨r, hr⟩ | ⟨l1, l2, hl⟩)
      · exact ⟨[], r, by simpa using hr⟩
      · exact ⟨a :: l1, l2, by simp [hl]⟩
    · rintro ⟨l1, l2, hl⟩
      cases l1 with
      | nil => exact Or.inl ⟨l2, by simpa using hl⟩
      | cons x l1' =>
        right
        refine ⟨l1', l2, ?_⟩
        have := hl
        simp only [List.cons_append, List.cons.injEq] at this
        exact this.2

/- ## Password Strength Evaluator — `SecurityUtils.validatePasswordStrength`
   (src/utils/security.js) -/

/-- Character class of `/[a-z]/`. -/
def isLowerAlpha (c : Char) : Bool := 'a' ≤ c && c ≤ 'z'

/-- Character class of `/[A-Z]/`. -/
def isUpperAlpha (c : Char) : Bool := 'A' ≤ c && c ≤ 'Z'

/-- Character class of `/\d/`. -/
def isDigitCh (c : Char) : Bool := '0' ≤ c && c ≤ '9'

/-- The fixed punctuation set of the special-character regex. -/
def specialChars : List Char :=
  ['!', '@', '#', '$', '%', '^', '&', '*', '(', ')', ',', '.', '?', '"',
   ':', '{', '}', '|', '<', '>']

/-- Character class of the special-character regex. -/
def isSpecialCh (c : Char) : Bool := specialChars.contains c

/-- Test of `/(.)\1{2,}/`: three or more identical characters in a row. -/
def hasTripleRepeat : List Char → Bool
  | a :: b :: c :: rest => (a = b && b = c) || hasTripleRepeat (b :: c :: rest)
  | _ => false

/-- Test of `/123|abc|qwe/i`: one of the common sequences occurs,
case-insensitively. -/
def hasCommonSeq (cs : List Char) : Bool :=
  let l := cs.map Char.toLower
  hasSub l ['1', '2', '3'] || hasSub l ['a', 'b', 'c'] || hasSub l ['q', 'w', 'e']

/-- Result record of `validatePasswordStrength`. -/
structure PasswordStrengthResult where
  score : Int
  strength : String
  feedback : List String
deriving DecidableEq, Repr

/-- The final value of the mutable `score` in `validatePasswordStrength`:
the sum of its eight contributions in source order. -/
def rawScore (p : String) : Int :=
  (if 8 ≤ p.length then 1 else 0)
  + (if 12 ≤ p.length then 1 else 0)
  + (if p.toList.any isLowerAlpha then 1 else 0)
  + (if p.toList.any isUpperAlpha then 1 else 0)
  + (if p.toList.any isDigitCh then 1 else 0)
  + (if p.toList.any isSpecialCh then 1 else 0)
  - (if hasTripleRepeat p.toList then 1 else 0)
  - (if hasCommonSeq p.toList then 1 else 0)

/-- The final value of the `feedback` array in `validatePasswordStrength`:
the concatenation of the individual pushes in source order. -/
def feedbackList (p : String) : List String :=
  (if 8 ≤ p.length then [] else ["Use at least 8 characters"])
  ++ (if p.toList.any isLowerAlpha then [] else ["Include lowercase letters"])
  ++ (if p.toList.any isUpperAlpha then [] else ["Include uppercase letters"])
  ++ (if p.toList.any isDigitCh then [] else ["Include numbers"])
  ++ (if p.toList.any isSpecialCh then [] else ["Include special characters"])
  ++ (if hasTripleRepeat p.toList then ["Avoid repeated characters"] else [])
  ++ (if hasCommonSeq p.toList then ["Avoid common sequences"] else [])

/-- The strength bucketing of `validatePasswordStrength`, applied to the
(unclamped) score. -/
def strengthOf (score : Int) : String :=
  if score ≤ 2 then "weak"
  else if score ≤ 4 then "medium"
  else if score ≤ 5 then "strong"
  else "very-strong"

/-- `SecurityUtils.validatePasswordStrength` (src/utils/security.js).
`none` stands for a missing (`undefined`/`null`) password; the
JavaScript `!password` guard also catches the empty string.  The
returned score is clamped at zero (`Math.max(0, score)`); the strength
is bucketed from the unclamped score; empty feedback is replaced by the
all-good message. -/
def validatePasswordStrength : Option String → PasswordStrengthResult
  | none => ⟨0, "very-weak", ["Password is required"]⟩
  | some p =>
    if p = "" then ⟨0, "very-weak", ["Password is required"]⟩
    else
      ⟨max 0 (rawScore p), strengthOf (rawScore p),
       if feedbackList p = [] then ["Password strength is good"] else feedbackList p⟩

/-- The `isAcceptable` flag computed by `POST /api/auth/check-password-strength`
(src/routes/auth.js): minimum acceptable score is 3. -/
def passwordIsAcceptable (p : Option String) : Bool :=
  3 ≤ (validatePasswordStrength p).score

example : (validatePasswordStrength (some "StrongP@ssw0rd123")).score = 5 := by decide
example : (validatePasswordStrength (some "StrongP@ssw0rd123")).strength = "strong" := by decide
example : (validatePasswordStrength (some "123")).strength = "weak" := by decide

/- ## Token Codec — `JWTUtils` (src/utils/jwt.js)

The `jsonwebtoken` library is modelled with an idealized unforgeable
MAC: `jwt.sign` attaches the pair (payload, secret) as the signature and
`jwt.verify` checks that the stored signature equals that pair, then
checks expiry (inclusive: expired when `now ≥ exp`), then audience and
issuer; any failure other than expiry surfaces as `JsonWebTokenError`,
which the wrapper maps to the message "Invalid token". -/

/-- The signed claims (JWT payload) used by this application. -/
structure TokenPayload where
  userId : Nat
  email : String
  type : String
  iat : Nat
  exp : Nat
  iss : String
  aud : String
deriving DecidableEq, Repr

/-- A signed token: payload plus idealized signature. -/
structure Token where
  payload : TokenPayload
  sig : TokenPayload × String
deriving DecidableEq, Repr

/-- Issuer constant `'zeabur-server-demo'`. -/
def JWT_ISSUER : String := "zeabur-server-demo"

/-- Audience constant `'zeabur-server-demo-users'`. -/
def JWT_AUDIENCE : String := "zeabur-server-demo-users"

/-- A token-bearing string at the wire level.  `empty` is the empty
string; `bad segs` is any other string that does not base64/JSON-decode
into a token — `segs` is its number of dot-separated segments; `tok t`
is a string that decodes into the token `t` (such strings always have
exactly three dot-separated segments). -/
inductive TokenStr
  | empty
  | bad (segs : Nat)
  | tok (t : Token)
deriving DecidableEq, Repr

/-- `JWTUtils.generateToken` at the moment `now` (Unix seconds) with a
payload `{userId, email, type}` and option `expiresIn = ttl` seconds.
The JavaScript guard `!payload.userId` rejects a falsy (zero) user id. -/
def generateToken (secret : String) (now : Nat) (userId : Nat) (email ty : String)
    (ttl : Nat) : Except String Token :=
  if userId = 0 then Except.error "Payload must contain userId"
  else
    let p : TokenPayload := ⟨userId, email, ty, now, now + ttl, JWT_ISSUER, JWT_AUDIENCE⟩
    Except.ok ⟨p, (p, secret)⟩

/-- `JWTUtils.generateAuthToken`: payload `{userId, email, type: 'auth'}`
with the configured access-token ttl (`config.jwt.expiresIn`, default 24h),
after the guard `!user.id || !user.email`. -/
def generateAuthToken (secret : String) (now : Nat) (authTtl : Nat) (id : Nat)
    (email : String) : Except String Token :=
  if id = 0 || email = "" then Except.error "User must have id and email properties"
  else generateToken secret now id email "auth" authTtl

/-- `JWTUtils.generateRefreshToken`: payload `{userId, email, type: 'refresh'}`
with `expiresIn: '7d'` (604800 seconds). -/
def generateRefreshToken (secret : String) (now : Nat) (id : Nat)
    (email : String) : Except String Token :=
  if id = 0 || email = "" then Except.error "User must have id and email properties"
  else generateToken secret now id email "refresh" 604800

/-- `JWTUtils.verifyToken` at time `now`: the empty-string guard, then
`jwt.verify` (signature, then inclusive expiry `now ≥ exp`, then
audience, then issuer), with the library errors mapped to the wrapper's
messages. -/
def verifyToken (secret : String) (now : Nat) : TokenStr → Except String TokenPayload
  | TokenStr.empty => Except.error "Token must be a valid string"
  | TokenStr.bad _ => Except.error "Invalid token"
  | TokenStr.tok t =>
    if t.sig ≠ (t.payload, secret) then Except.error "Invalid token"
    else if t.payload.exp ≤ now then Except.error "Token has expired"
    else if t.payload.aud ≠ JWT_AUDIENCE then Except.error "Invalid token"
    else if t.payload.iss ≠ JWT_ISSUER then Except.error "Invalid token"
    else Except.ok t.payload

/-- `JWTUtils.decodeToken`: the empty-string guard throws; `jwt.decode`
returns `null` for undecodable strings and the payload otherwise —
the signature is never checked. -/
def decodeToken : TokenStr → Except String (Option TokenPayload)
  | TokenStr.empty => Except.error "Token must be a valid string"
  | TokenStr.bad _ => Except.ok none
  | TokenStr.tok t => Except.ok (some t.payload)

/-- `JWTUtils.isTokenExpired` at time `now`: decode failure or a falsy
`exp` claim count as expired; otherwise the source compares
`decoded.payload.exp < currentTime` (strict). -/
def isTokenExpired (now : Nat) (s : TokenStr) : Bool :=
  match decodeToken s with
  | Except.error _ => true
  | Except.ok none => true
  | Except.ok (some p) => if p.exp = 0 then true else decide (p.exp < now)

/-- `JWTUtils.getTokenRemainingTime` at time `now`:
`Math.max(0, exp - now)` on the unverified decoded payload, `0` when the
decode fails or the `exp` claim is falsy. -/
def getTokenRemainingTime (now : Nat) (s : TokenStr) : Int :=
  match decodeToken s with
  | Except.error _ => 0
  | Except.ok none => 0
  | Except.ok (some p) =>
    if p.exp = 0 then 0 else max 0 ((p.exp : Int) - (now : Int))

/-- `JWTUtils.isValidTokenFormat`: false for a falsy token, otherwise
true exactly when the string has three dot-separated segments. -/
def isValidTokenFormat : TokenStr → Bool
  | TokenStr.empty => false
  | TokenStr.bad segs => segs = 3
  | TokenStr.tok _ => true

/-- `JWTUtils.refreshAccessToken` at time `now`: verify the refresh
token, require `type === 'refresh'`, then mint a new access token via
`generateAuthToken`; every thrown message is wrapped into
`Token refresh failed: ...` by the surrounding catch. -/
def refreshAccessToken (secret : String) (now : Nat) (authTtl : Nat)
    (s : TokenStr) : Except String Token :=
  match verifyToken secret now s with
  | Except.error m => Except.error ("Token refresh failed: " ++ m)
  | Except.ok d =>
    if d.type ≠ "refresh" then Except.error "Token refresh failed: Invalid refresh token type"
    else
      match generateAuthToken secret now authTtl d.userId d.email with
      | Except.error m => Except.error ("Token refresh failed: " ++ m)
      | Except.ok t => Except.ok t

/- ## Credential Store — `User` model (src/models/user.js) -/

/-- A stored user record (`users` table row). -/
structure User where
  id : Nat
  email : String
  passwordHash : String
deriving DecidableEq, Repr

/-- Idealized injective stand-in for `bcrypt.hash` with cost 12. -/
def hashPassword (p : String) : String := "bcrypt$" ++ p

/-- Whitespace class of the regex `\s` (ASCII part). -/
def isSpaceChar (c : Char) : Bool :=
  c = ' ' || c = '\t' || c = '\n' || c = '\r' || c = '\x0b' || c = '\x0c'

/-- `User.isValidEmail`: the regex `/^[^\s@]+@[^\s@]+\.[^\s@]+$/`.
A string matches exactly when it splits at its unique `@` into a
non-empty space-free local part and a space-free domain that carries a
dot at an inner position. -/
def isValidEmail (s : String) : Bool :=
  let cs := s.toList
  let local_ := cs.takeWhile (fun c => !(c = '@'))
  match cs.dropWhile (fun c => !(c = '@')) with
  | '@' :: domain =>
    !local_.isEmpty
      && local_.all (fun c => !(isSpaceChar c))
      && !domain.isEmpty
      && domain.all (fun c => !(isSpaceChar c) && !(c = '@'))
      && ((domain.drop 1).dropLast.contains '.')
  | _ => false

/-- `User.findById`: the JavaScript `!id` guard returns `null` for a
falsy id, otherwise the row whose `id` matches. -/
def findById (db : List User) (id : Nat) : Option User :=
  if id = 0 then none else db.find? (fun u => u.id == id)

/-- `User.findByEmail`: the `!email` guard, then an exact-string SQL
lookup `WHERE email = $1` with the *probe* lowercased
(`email.toLowerCase()`); the stored emails are compared as-is. -/
def findByEmailM (db : List User) (email : String) : Option User :=
  if email = "" then none else db.find? (fun u => u.email == toLowerStr email)

/-- `User.create`: required-field guard, email-format and
password-length validation, the `findByEmail` duplicate pre-check, and
the `INSERT` — the email is stored exactly as passed.  The `UNIQUE`
constraint on `users.email` (db/init.sql, exact-string uniqueness) is
modelled by the last guard; its violation surfaces as the underlying
driver's message, not the pre-check's. -/
def createUser (db : List User) (email pw : String) :
    Except String (User × List User) :=
  if email = "" || pw = "" then Except.error "Email and password are required"
  else if !(isValidEmail email) then Except.error "Invalid email format"
  else if pw.length < 6 then Except.error "Password must be at least 6 characters long"
  else
    match findByEmailM db email with
    | some _ => Except.error "User with this email already exists"
    | none =>
      if db.any (fun u => u.email == email) then
        Except.error "duplicate key value violates unique constraint"
      else
        let u : User := ⟨db.length + 1, email, hashPassword pw⟩
        Except.ok (u, db ++ [u])

/- ## Authentication Middleware Chain (src/middleware/auth.js) -/

/-- An HTTP error response body produced by a middleware rejection. -/
structure ErrorBody where
  status : Nat
  code : String
  message : String
deriving DecidableEq, Repr

/-- Outcome of an authentication gate: a rejection response, or success
with the resolved user and decoded token attached to the request. -/
inductive GateResult
  | reject (e : ErrorBody)
  | ok (u : User) (decoded : TokenPayload)
deriving DecidableEq, Repr

/-- The `Authorization` header of a request: absent (or the falsy empty
string), a bare token string, or `'Bearer ' +` token string. -/
inductive Header
  | missing
  | raw (ts : TokenStr)
  | bearer (ts : TokenStr)
deriving DecidableEq, Repr

/-- The part of `authenticateToken` after token extraction: format
check, verification with the `includes('expired')` error dispatch, the
`type !== 'auth'` check, and the user lookup. -/
def authGateAfterExtract (secret : String) (now : Nat) (db : List User)
    (ts : TokenStr) : GateResult :=
  if !(isValidTokenFormat ts) then
    GateResult.reject ⟨401, "AUTH_TOKEN_INVALID", "Invalid token format"⟩
  else
    match verifyToken secret now ts with
    | Except.error m =>
      GateResult.reject
        ⟨401, if stringIncludes m "expired" then "AUTH_TOKEN_EXPIRED" else "AUTH_TOKEN_INVALID", m⟩
    | Except.ok d =>
      if d.type ≠ "auth" then
        GateResult.reject ⟨401, "AUTH_TOKEN_INVALID", "Invalid token type"⟩
      else
        match findById db d.userId with
        | none => GateResult.reject ⟨401, "USER_NOT_FOUND", "User not found"⟩
        | some u => GateResult.ok u d

/-- `authenticateToken` (the mandatory auth gate): header-missing guard
(the empty-string header is falsy and also rejected there), `'Bearer '`
prefix stripping, empty-token guard, then `authGateAfterExtract`. -/
def authenticateToken (secret : String) (now : Nat) (db : List User) :
    Header → GateResult
  | Header.missing =>
    GateResult.reject ⟨401, "AUTH_TOKEN_MISSING", "Authorization header is required"⟩
  | Header.raw ts =>
    if ts = TokenStr.empty then
      GateResult.reject ⟨401, "AUTH_TOKEN_MISSING", "Authorization header is required"⟩
    else authGateAfterExtract secret now db ts
  | Header.bearer ts =>
    if ts = TokenStr.empty then
      GateResult.reject ⟨401, "AUTH_TOKEN_MISSING", "Token is required"⟩
    else authGateAfterExtract secret now db ts

/-- `validateRefreshToken` (the refresh gate): reads `req.body.refreshToken`
(`none` for an absent field; the empty string is falsy too), verifies it
(any verification failure → 401 `AUTH_TOKEN_INVALID`), requires
`type === 'refresh'`, then resolves the user. -/
def validateRefreshToken (secret : String) (now : Nat) (db : List User) :
    Option TokenStr → GateResult
  | none => GateResult.reject ⟨400, "AUTH_TOKEN_MISSING", "Refresh token is required"⟩
  | some ts =>
    if ts = TokenStr.empty then
      GateResult.reject ⟨400, "AUTH_TOKEN_MISSING", "Refresh token is required"⟩
    else
      match verifyToken secret now ts with
      | Except.error _ =>
        GateResult.reject ⟨401, "AUTH_TOKEN_INVALID", "Invalid refresh token"⟩
      | Except.ok d =>
        if d.type ≠ "refresh" then
          GateResult.reject ⟨401, "AUTH_TOKEN_INVALID", "Invalid token type"⟩
        else
          match findById db d.userId with
          | none => GateResult.reject ⟨401, "USER_NOT_FOUND", "User not found"⟩
          | some u => GateResult.ok u d

/- ## Ownership gate — `requireOwnership` (src/middleware/auth.js) -/

/-- Leading decimal digits of a character list, `none` when the first
character is not a digit. -/
def leadDigits (cs : List Char) : Option Nat :=
  let ds := cs.takeWhile isDigitCh
  if ds.isEmpty then none
  else some (ds.foldl (fun a c => a * 10 + (c.toNat - '0'.toNat)) 0)

/-- JavaScript `parseInt` in base 10: skip leading whitespace, optional
sign, then leading digits; `none` models `NaN`. -/
def jsParseInt (s : String) : Option Int :=
  let cs := s.toList.dropWhile isSpaceChar
  match cs with
  | '-' :: rest => (leadDigits rest).map (fun n => -(n : Int))
  | '+' :: rest => (leadDigits rest).map (fun n => (n : Int))
  | _ => (leadDigits cs).map (fun n => (n : Int))

/-- `requireOwnership`: the `!req.user || !req.token` guard, the
`req.params.userId || req.params.id` fallback (the empty string is
falsy), `parseInt` of the selected parameter, and the strict comparison
with the authenticated user's id — `NaN` (`none`) never equals it. -/
def requireOwnership (reqUser : Option User) (reqTokenPresent : Bool)
    (paramUserId paramId : Option String) : Except ErrorBody Unit :=
  match reqUser with
  | none => Except.error ⟨401, "AUTH_TOKEN_MISSING", "Authentication required"⟩
  | some u =>
    if !reqTokenPresent then
      Except.error ⟨401, "AUTH_TOKEN_MISSING", "Authentication required"⟩
    else
      let rawParam : Option String :=
        match paramUserId with
        | some s => if s = "" then paramId else some s
        | none => paramId
      let requested : Option Int :=
        match rawParam with
        | none => none
        | some s => jsParseInt s
      if requested ≠ some (u.id : Int) then
        Except.error ⟨403, "AUTH_CREDENTIALS_INVALID", "Access denied: insufficient permissions"⟩
      else Except.ok ()

/- ## Rate Limiter — `SecurityUtils.checkRateLimit` / `resetRateLimit`
   (src/utils/security.js).  The `Map` is an association list; time is
   integer milliseconds. -/

/-- One rate-limit record: attempt count and window reset timestamp. -/
structure RateRecord where
  attempts : Nat
  resetTime : Nat
deriving DecidableEq, Repr

/-- The in-memory rate-limit store. -/
abbrev RateStore := List (String × RateRecord)

/-- `Map.prototype.get`. -/
def storeGet : RateStore → String → Option RateRecord
  | [], _ => none
  | (k', r) :: rest, k => if k' = k then some r else storeGet rest k

/-- `Map.prototype.set` (keys are unique in a `Map`). -/
def storeSet : RateStore → String → RateRecord → RateStore
  | [], k, r => [(k, r)]
  | (k', r') :: rest, k, r =>
    if k' = k then (k, r) :: rest else (k', r') :: storeSet rest k r

/-- `Map.prototype.delete`. -/
def storeDelete : RateStore → String → RateStore
  | [], _ => []
  | (k', r') :: rest, k =>
    if k' = k then storeDelete rest k else (k', r') :: storeDelete rest k

/-- Result of `checkRateLimit`. -/
structure RateLimitResult where
  allowed : Bool
  remaining : Nat
  resetTime : Nat
  retryAfter : Nat
deriving DecidableEq, Repr

/-- `SecurityUtils.checkRateLimit` at time `now` ms: fetch or create the
record, lazily reset an elapsed window (`now > resetTime`), deny with
`retryAfter = Math.ceil((resetTime - now) / 1000)` when
`attempts >= maxAttempts`, otherwise count the attempt and allow.  A
lazy reset of a record fetched from the map mutates it in place, so it
is written back even on the deny path; a freshly created record is only
stored on the allow path. -/
def checkRateLimit (store : RateStore) (now : Nat) (key : String)
    (maxAttempts windowMs : Nat) : RateStore × RateLimitResult :=
  let fetched := storeGet store key
  let rec0 := fetched.getD ⟨0, now + windowMs⟩
  let rec1 := if now > rec0.resetTime then RateRecord.mk 0 (now + windowMs) else rec0
  if rec1.attempts ≥ maxAttempts then
    let store' := if fetched.isSome then storeSet store key rec1 else store
    (store', ⟨false, 0, rec1.resetTime, (rec1.resetTime - now + 999) / 1000⟩)
  else
    let rec2 : RateRecord := ⟨rec1.attempts + 1, rec1.resetTime⟩
    (storeSet store key rec2, ⟨true, maxAttempts - rec2.attempts, rec2.resetTime, 0⟩)

/-- `SecurityUtils.resetRateLimit`. -/
def resetRateLimit (store : RateStore) (key : String) : RateStore :=
  storeDelete store key

theorem storeGet_set_self (s : RateStore) (k : String) (r : RateRecord) :
    storeGet (storeSet s k r) k = some r := by
  induction s with
  | nil => simp [storeGet, storeSet]
  | cons kr rest ih =>
    obtain ⟨k', r'⟩ := kr
    by_cases h : k' = k <;> simp [storeGet, storeSet, h, ih]

theorem storeGet_delete_self (s : RateStore) (k : String) :
    storeGet (storeDelete s k) k = none := by
  induction s with
  | nil => simp [storeGet, storeDelete]
  | cons kr rest ih =>
    obtain ⟨k', r'⟩ := kr
    by_cases h : k' = k <;> simp [storeGet, storeDelete, h, ih]

/- ## Spec-side reference definitions for the password evaluator
   (written from the specification's wording, for the refinement
   statement of the additive scoring) -/

/-- The password contains three or more identical characters in a row. -/
def SpecHasTriple (s : String) : Prop :=
  ∃ l1 a l2, s.toList = l1 ++ a :: a :: a :: l2

/-- The password contains "123", "abc" or "qwe" case-insensitively. -/
def SpecHasSeq (s : String) : Prop :=
  (∃ l1 l2, s.toList.map Char.toLower = l1 ++ ['1', '2', '3'] ++ l2)
  ∨ (∃ l1 l2, s.toList.map Char.toLower = l1 ++ ['a', 'b', 'c'] ++ l2)
  ∨ (∃ l1 l2, s.toList.map Char.toLower = l1 ++ ['q', 'w', 'e'] ++ l2)

theorem hasTripleRepeat_iff (cs : List Char) :
    hasTripleRepeat cs = true ↔ ∃ l1 a l2, cs = l1 ++ a :: a :: a :: l2 := by
  induction cs with
  | nil =>
    rw [show hasTripleRepeat [] = false from rfl]
    simp only [Bool.false_eq_true, false_iff]
    rintro ⟨l1, a, l2, h⟩
    cases l1 <;> simp_all
  | cons a tail ih =>
    cases tail with
    | nil =>
      rw [show hasTripleRepeat [a] = false from rfl]
      simp only [Bool.false_eq_true, false_iff]
      rintro ⟨l1, x, l2, h⟩
      apply_fun List.length at h
      simp [List.length_append] at h
      omega
    | cons b tail2 =>
      cases tail2 with
      | nil =>
        rw [show hasTripleRepeat [a, b] = false from rfl]
        simp only [Bool.false_eq_true, false_iff]
        rintro ⟨l1, x, l2, h⟩
        apply_fun List.length at h
        simp [List.length_append] at h
        omega
      | cons c rest =>
        rw [show hasTripleRepeat (a :: b :: c :: rest)
              = ((a = b && b = c) || hasTripleRepeat (b :: c :: rest)) from rfl]
        rw [Bool.or_eq_true, Bool.and_eq_true, decide_eq_true_eq, decide_eq_true_eq, ih]
        constructor
        · rintro (⟨rfl, rfl⟩ | ⟨l1, x, l2, h⟩)
          · exact ⟨[], a, rest, rfl⟩
          · exact ⟨a :: l1, x, l2, by simp [h]⟩
        · rintro ⟨l1, x, l2, h⟩
          cases l1 with
          | nil =>
            simp only [List.nil_append, List.cons.injEq] at h
            obtain ⟨rfl, rfl, rfl, -⟩ := h
            exact Or.inl ⟨rfl, rfl⟩
          | cons y l1' =>
            simp only [List.cons_append, List.cons.injEq] at h
            exact Or.inr ⟨l1', x, l2, h.2⟩

theorem hasCommonSeq_iff (s : String) :
    hasCommonSeq s.toList = true ↔ SpecHasSeq s := by
  rw [show hasCommonSeq s.toList
        = (hasSub (s.toList.map Char.toLower) ['1', '2', '3']
           || hasSub (s.toList.map Char.toLower) ['a', 'b', 'c']
           || hasSub (s.toList.map Char.toLower) ['q', 'w', 'e']) from rfl]
  simp only [Bool.or_eq_true, hasSub_iff, SpecHasSeq, or_assoc]

instance : DecidablePred SpecHasTriple := fun s =>
  decidable_of_iff (hasTripleRepeat s.toList = true) (hasTripleRepeat_iff s.toList)

instance : DecidablePred SpecHasSeq := fun s =>
  decidable_of_iff (hasCommonSeq s.toList = true) (hasCommonSeq_iff s)

/-- Additive reference score from the specification: one point for each
satisfied length/character-class criterion, minus one for each of the
two penalty patterns. -/
def specRawScore (s : String) : Int :=
  (if 8 ≤ s.length then 1 else 0)
  + (if 12 ≤ s.length then 1 else 0)
  + (if ∃ c ∈ s.toList, 'a' ≤ c ∧ c ≤ 'z' then 1 else 0)
  + (if ∃ c ∈ s.toList, 'A' ≤ c ∧ c ≤ 'Z' then 1 else 0)
  + (if ∃ c ∈ s.toList, '0' ≤ c ∧ c ≤ '9' then 1 else 0)
  + (if ∃ c ∈ s.toList, c ∈ specialChars then 1 else 0)
  - (if SpecHasTriple s then 1 else 0)
  - (if SpecHasSeq s then 1 else 0)

/-- Strength bucketing from the specification: weak up to 2, medium up
to 4, strong up to 5, very-strong above. -/
def specBucket (score : Int) : String :=
  if score ≤ 2 then "weak"
  else if score ≤ 4 then "medium"
  else if score ≤ 5 then "strong"
  else "very-strong"

theorem ite_prop_eq_ite_bool {α : Sort _} (P : Prop) [Decidable P] (b : Bool)
    (h : P ↔ b = true) (x y : α) : (if P then x else y) = (if b then x else y) := by
  by_cases hp : P
  · rw [if_pos hp, if_pos (h.mp hp)]
  · rw [if_neg hp, if_neg (fun hb => hp (h.mpr hb))]

theorem specRawScore_eq_rawScore (s : String) : specRawScore s = rawScore s := by
  have hl : (∃ c ∈ s.toList, 'a' ≤ c ∧ c ≤ 'z') ↔ s.toList.any isLowerAlpha = true := by
    simp [List.any_eq_true, isLowerAlpha, Bool.and_eq_true, decide_eq_true_eq]
  have hu : (∃ c ∈ s.toList, 'A' ≤ c ∧ c ≤ 'Z') ↔ s.toList.any isUpperAlpha = true := by
    simp [List.any_eq_true, isUpperAlpha, Bool.and_eq_true, decide_eq_true_eq]
  have hd : (∃ c ∈ s.toList, '0' ≤ c ∧ c ≤ '9') ↔ s.toList.any isDigitCh = true := by
    simp [List.any_eq_true, isDigitCh, Bool.and_eq_true, decide_eq_true_eq]
  have hs : (∃ c ∈ s.toList, c ∈ specialChars) ↔ s.toList.any isSpecialCh = true := by
    simp [List.any_eq_true, isSpecialCh, List.elem_iff]
  have ht : SpecHasTriple s ↔ hasTripleRepeat s.toList = true :=
    (hasTripleRepeat_iff s.toList).symm
  have hq : SpecHasSeq s ↔ hasCommonSeq s.toList = true :=
    (hasCommonSeq_iff s).symm
  rw [specRawScore, rawScore,
    ite_prop_eq_ite_bool _ _ hl, ite_prop_eq_ite_bool _ _ hu,
    ite_prop_eq_ite_bool _ _ hd, ite_prop_eq_ite_bool _ _ hs,
    ite_prop_eq_ite_bool _ _ ht, ite_prop_eq_ite_bool _ _ hq]

/- ## Claim theorems -/

/-- **C7** (confirmed): `validatePasswordStrength` follows the additive
reference definition — the returned score is the clamp at zero of the
additive spec score (+1 for each of length ≥ 8, length ≥ 12, a lowercase
letter, an uppercase letter, a digit, a symbol of the fixed punctuation
set; −1 for a triple repeat and −1 for a common sequence), the strength
is bucketed weak/medium/strong/very-strong at 2/4/5, the two penalties
add their feedback messages, and an absent or empty password yields
score 0, strength "very-weak" and feedback ["Password is required"]. -/
theorem password_strength_additive_spec (p : Option String) :
    ((p = none ∨ p = some "") →
      validatePasswordStrength p = ⟨0, "very-weak", ["Password is required"]⟩)
    ∧ (∀ s, p = some s → s ≠ "" →
        (validatePasswordStrength p).score = max 0 (specRawScore s)
        ∧ 0 ≤ (validatePasswordStrength p).score
        ∧ (validatePasswordStrength p).strength = specBucket (specRawScore s)
        ∧ (SpecHasTriple s →
            "Avoid repeated characters" ∈ (validatePasswordStrength p).feedback)
        ∧ (SpecHasSeq s →
            "Avoid common sequences" ∈ (validatePasswordStrength p).feedback)) := by
  constructor
  · rintro (rfl | rfl) <;> rfl
  · rintro s rfl hs
    have hv : validatePasswordStrength (some s)
        = ⟨max 0 (rawScore s), strengthOf (rawScore s),
           if feedbackList s = [] then ["Password strength is good"] else feedbackList s⟩ := by
      simp [validatePasswordStrength, hs]
    rw [hv, specRawScore_eq_rawScore]
    refine ⟨rfl, le_max_left _ _, rfl, ?_, ?_⟩
    · intro ht
      have hb : hasTripleRepeat s.toList = true := (hasTripleRepeat_iff _).mpr ht
      have hb' : hasTripleRepeat s.data = true := hb
      have hmem : "Avoid repeated characters" ∈ feedbackList s := by
        simp [feedbackList, hb']
      have hne : feedbackList s ≠ [] := by
        intro h; rw [h] at hmem; simp at hmem
      simpa [if_neg hne] using hmem
    · intro hq
      have hb : hasCommonSeq s.toList = true := (hasCommonSeq_iff s).mpr hq
      have hb' : hasCommonSeq s.data = true := hb
      have hmem : "Avoid common sequences" ∈ feedbackList s := by
        simp [feedbackList, hb']
      have hne : feedbackList s ≠ [] := by
        intro h; rw [h] at hmem; simp at hmem
      simpa [if_neg hne] using hmem

/-- Witness for C7 at the concrete inputs `some ""` and `some "aaa"`. -/
theorem password_strength_additive_spec_witness :
    validatePasswordStrength (some "") = ⟨0, "very-weak", ["Password is required"]⟩
    ∧ (validatePasswordStrength (some "aaa")).score = max 0 (specRawScore "aaa")
    ∧ (SpecHasTriple "aaa" →
        "Avoid repeated characters" ∈ (validatePasswordStrength (some "aaa")).feedback) :=
  ⟨(password_strength_additive_spec (some "")).1 (Or.inr rfl),
   ((password_strength_additive_spec (some "aaa")).2 "aaa" rfl (by decide)).1,
   (((password_strength_additive_spec (some "aaa")).2 "aaa" rfl (by decide)).2.2.2).1⟩

/-- **C8** (code_bug): the repository's own tests
(tests/utils/security.test.js, tests/routes/user.test.js) assert that
`'StrongP@ssw0rd123'` evaluates to strength `'very-strong'` with
feedback "Password strength is good", but the code scores it 5 — the
trailing "123" triggers the common-sequence penalty — which buckets as
`'strong'` with feedback ["Avoid common sequences"].  The `'123'` half
of the claim holds: weak, not acceptable, feedback length > 1. -/
theorem password_strength_concrete_outcomes :
    validatePasswordStrength (some "StrongP@ssw0rd123")
      = ⟨5, "strong", ["Avoid common sequences"]⟩
    ∧ passwordIsAcceptable (some "StrongP@ssw0rd123") = true
    ∧ validatePasswordStrength (some "123")
      = ⟨0, "weak",
         ["Use at least 8 characters", "Include lowercase letters",
          "Include uppercase letters", "Include special characters",
          "Avoid common sequences"]⟩
    ∧ passwordIsAcceptable (some "123") = false
    ∧ 1 < (validatePasswordStrength (some "123")).feedback.length := by
  exact ⟨by decide, by decide, by decide, by decide, by decide⟩

/-- **C2** (confirmed): issue/verify round-trip.  For every payload with
a (truthy) `userId`, `email` and `type`, and every ttl, the token minted
by `generateToken` verifies under the same secret to a payload with the
same `userId`/`email`/`type` at any time strictly before `ttl` seconds
have elapsed, and fails with "Token has expired" at any time from
`issuedAt + ttl` on. -/
theorem issue_verify_round_trip (secret email ty : String)
    (userId t0 ttl now : Nat) (huid : userId ≠ 0) :
    ∃ tok : Token,
      generateToken secret t0 userId email ty ttl = Except.ok tok
      ∧ tok.payload.userId = userId
      ∧ tok.payload.email = email
      ∧ tok.payload.type = ty
      ∧ (now < t0 + ttl →
          verifyToken secret now (TokenStr.tok tok) = Except.ok tok.payload)
      ∧ (t0 + ttl ≤ now →
          verifyToken secret now (TokenStr.tok tok) = Except.error "Token has expired") := by
  refine ⟨⟨⟨userId, email, ty, t0, t0 + ttl, JWT_ISSUER, JWT_AUDIENCE⟩,
           (⟨userId, email, ty, t0, t0 + ttl, JWT_ISSUER, JWT_AUDIENCE⟩, secret)⟩,
         ?_, rfl, rfl, rfl, ?_, ?_⟩
  · simp [generateToken, huid]
  · intro h
    simp only [verifyToken]
    rw [if_neg (by simp), if_neg (by simp; omega), if_neg (by simp), if_neg (by simp)]
  · intro h
    simp only [verifyToken]
    rw [if_neg (by simp), if_pos (by simpa using h)]

/-- Witness for C2 at secret "s", payload (1, "user@example.com", "auth"),
issue time 100, ttl 50, checked at times 149 and 150. -/
theorem issue_verify_round_trip_witness :
    (1 : Nat) ≠ 0
    ∧ (∃ tok : Token,
        generateToken "s" 100 1 "user@example.com" "auth" 50 = Except.ok tok
        ∧ tok.payload.userId = 1
        ∧ tok.payload.email = "user@example.com"
        ∧ tok.payload.type = "auth"
        ∧ (149 < 100 + 50 →
            verifyToken "s" 149 (TokenStr.tok tok) = Except.ok tok.payload)
        ∧ (100 + 50 ≤ 149 →
            verifyToken "s" 149 (TokenStr.tok tok) = Except.error "Token has expired"))
    ∧ (∃ tok : Token,
        generateToken "s" 100 1 "user@example.com" "auth" 50 = Except.ok tok
        ∧ tok.payload.userId = 1
        ∧ tok.payload.email = "user@example.com"
        ∧ tok.payload.type = "auth"
        ∧ (150 < 100 + 50 →
            verifyToken "s" 150 (TokenStr.tok tok) = Except.ok tok.payload)
        ∧ (100 + 50 ≤ 150 →
            verifyToken "s" 150 (TokenStr.tok tok) = Except.error "Token has expired")) :=
  ⟨by decide,
   issue_verify_round_trip "s" "user@example.com" "auth" 1 100 50 149 (by decide),
   issue_verify_round_trip "s" "user@example.com" "auth" 1 100 50 150 (by decide)⟩

/-- **C1** (confirmed): token-kind enforcement.  A signed, unexpired
token whose payload carries `type = 'refresh'` is rejected by the
mandatory auth gate with 401 `AUTH_TOKEN_INVALID` / "Invalid token
type"; symmetrically, a signed, unexpired token whose `type` differs
from `'refresh'` is rejected by the refresh gate with 401
`AUTH_TOKEN_INVALID` / "Invalid token type" and by
`refreshAccessToken` with the typed failure
"Token refresh failed: Invalid refresh token type". -/
theorem token_kind_enforcement (secret email ty : String)
    (userId t0 ttl now authTtl : Nat) (db : List User)
    (huid : userId ≠ 0) (hnow : now < t0 + ttl) (hty : ty ≠ "refresh") :
    ∃ tokR tokA : Token,
      generateToken secret t0 userId email "refresh" ttl = Except.ok tokR
      ∧ authenticateToken secret now db (Header.bearer (TokenStr.tok tokR))
          = GateResult.reject ⟨401, "AUTH_TOKEN_INVALID", "Invalid token type"⟩
      ∧ generateToken secret t0 userId email ty ttl = Except.ok tokA
      ∧ validateRefreshToken secret now db (some (TokenStr.tok tokA))
          = GateResult.reject ⟨401, "AUTH_TOKEN_INVALID", "Invalid token type"⟩
      ∧ refreshAccessToken secret now authTtl (TokenStr.tok tokA)
          = Except.error "Token refresh failed: Invalid refresh token type" := by
  have hverR : verifyToken secret now
      (TokenStr.tok ⟨⟨userId, email, "refresh", t0, t0 + ttl, JWT_ISSUER, JWT_AUDIENCE⟩,
        (⟨userId, email, "refresh", t0, t0 + ttl, JWT_ISSUER, JWT_AUDIENCE⟩, secret)⟩)
      = Except.ok ⟨userId, email, "refresh", t0, t0 + ttl, JWT_ISSUER, JWT_AUDIENCE⟩ := by
    simp only [verifyToken]
    rw [if_neg (by simp), if_neg (by simp; omega), if_neg (by simp), if_neg (by simp)]
  have hverA : verifyToken secret now
      (TokenStr.tok ⟨⟨userId, email, ty, t0, t0 + ttl, JWT_ISSUER, JWT_AUDIENCE⟩,
        (⟨userId, email, ty, t0, t0 + ttl, JWT_ISSUER, JWT_AUDIENCE⟩, secret)⟩)
      = Except.ok ⟨userId, email, ty, t0, t0 + ttl, JWT_ISSUER, JWT_AUDIENCE⟩ := by
    simp only [verifyToken]
    rw [if_neg (by simp), if_neg (by simp; omega), if_neg (by simp), if_neg (by simp)]
  refine ⟨⟨⟨userId, email, "refresh", t0, t0 + ttl, JWT_ISSUER, JWT_AUDIENCE⟩,
           (⟨userId, email, "refresh", t0, t0 + ttl, JWT_ISSUER, JWT_AUDIENCE⟩, secret)⟩,
          ⟨⟨userId, email, ty, t0, t0 + ttl, JWT_ISSUER, JWT_AUDIENCE⟩,
           (⟨userId, email, ty, t0, t0 + ttl, JWT_ISSUER, JWT_AUDIENCE⟩, secret)⟩,
          ?_, ?_, ?_, ?_, ?_⟩
  · simp [generateToken, huid]
  · simp only [authenticateToken]
    rw [if_neg (by simp)]
    simp only [authGateAfterExtract, isValidTokenFormat, Bool.not_true, Bool.false_eq_true,
      if_false, hverR]
    simp
  · simp [generateToken, huid]
  · simp only [validateRefreshToken]
    rw [if_neg (by simp)]
    simp only [hverA]
    simp [hty]
  · simp only [refreshAccessToken, hverA]
    simp [hty]

/-- Witness for C1 at secret "s", user (1, "user@example.com"), issue
time 0, ttl 10, checked at time 5, access ttl 86400, empty user table,
auth-kind counterpart "auth". -/
theorem token_kind_enforcement_witness :
    (1 : Nat) ≠ 0 ∧ (5 : Nat) < 0 + 10 ∧ "auth" ≠ "refresh"
    ∧ ∃ tokR tokA : Token,
        generateToken "s" 0 1 "user@example.com" "refresh" 10 = Except.ok tokR
        ∧ authenticateToken "s" 5 [] (Header.bearer (TokenStr.tok tokR))
            = GateResult.reject ⟨401, "AUTH_TOKEN_INVALID", "Invalid token type"⟩
        ∧ generateToken "s" 0 1 "user@example.com" "auth" 10 = Except.ok tokA
        ∧ validateRefreshToken "s" 5 [] (some (TokenStr.tok tokA))
            = GateResult.reject ⟨401, "AUTH_TOKEN_INVALID", "Invalid token type"⟩
        ∧ refreshAccessToken "s" 5 86400 (TokenStr.tok tokA)
            = Except.error "Token refresh failed: Invalid refresh token type" :=
  ⟨by decide, by decide, by decide,
   token_kind_enforcement "s" "user@example.com" "auth" 1 0 10 5 86400 []
     (by decide) (by decide) (by decide)⟩

/-- **C4** (corrected), counterexample to the claim as stated: the
header `'Bearer '` leaves an empty token after prefix stripping; the
empty string is not three dot-separated segments, yet the gate rejects
it with 401 `AUTH_TOKEN_MISSING` ("Token is required"), not with the
claimed 401 `AUTH_TOKEN_INVALID` format rejection. -/
theorem auth_gate_empty_bearer_counterexample :
    authenticateToken "secret" 0 [] (Header.bearer TokenStr.empty)
      = GateResult.reject ⟨401, "AUTH_TOKEN_MISSING", "Token is required"⟩
    ∧ isValidTokenFormat TokenStr.empty = false
    ∧ authenticateToken "secret" 0 [] (Header.bearer TokenStr.empty)
      ≠ GateResult.reject ⟨401, "AUTH_TOKEN_INVALID", "Invalid token format"⟩ := by
  exact ⟨by decide, by decide, by decide⟩

/-- **C4** (corrected), amended decision sequence of the mandatory auth
gate: (1) a missing `Authorization` header is rejected 401
`AUTH_TOKEN_MISSING`; (2) a `'Bearer '` prefix is stripped, and a
request whose remaining token is *empty* is rejected 401
`AUTH_TOKEN_MISSING` ("Token is required"); (3) a non-empty token that
is not three dot-separated segments is rejected 401 `AUTH_TOKEN_INVALID`
before any signature verification; (4) an expired token is rejected 401
`AUTH_TOKEN_EXPIRED` and any other verification failure 401
`AUTH_TOKEN_INVALID`; (5) a verified auth-type token whose `userId`
matches no user is rejected 401 `USER_NOT_FOUND`; (6) on success the
resolved user and decoded token are attached.  Checks run strictly in
this order. -/
theorem auth_gate_decision_sequence (secret : String) (now : Nat) (db : List User) :
    (authenticateToken secret now db Header.missing
      = GateResult.reject ⟨401, "AUTH_TOKEN_MISSING", "Authorization header is required"⟩)
    ∧ (authenticateToken secret now db (Header.bearer TokenStr.empty)
      = GateResult.reject ⟨401, "AUTH_TOKEN_MISSING", "Token is required"⟩)
    ∧ (∀ ts, ts ≠ TokenStr.empty →
        authenticateToken secret now db (Header.bearer ts)
          = authenticateToken secret now db (Header.raw ts))
    ∧ (∀ k, k ≠ 3 →
        authenticateToken secret now db (Header.bearer (TokenStr.bad k))
          = GateResult.reject ⟨401, "AUTH_TOKEN_INVALID", "Invalid token format"⟩)
    ∧ (∀ t : Token, t.sig = (t.payload, secret) → t.payload.exp ≤ now →
        authenticateToken secret now db (Header.bearer (TokenStr.tok t))
          = GateResult.reject ⟨401, "AUTH_TOKEN_EXPIRED", "Token has expired"⟩)
    ∧ (∀ t : Token, t.sig ≠ (t.payload, secret) →
        authenticateToken secret now db (Header.bearer (TokenStr.tok t))
          = GateResult.reject ⟨401, "AUTH_TOKEN_INVALID", "Invalid token"⟩)
    ∧ (∀ t : Token, t.sig = (t.payload, secret) → now < t.payload.exp →
        t.payload.aud = JWT_AUDIENCE → t.payload.iss = JWT_ISSUER →
        t.payload.type = "auth" →
        (findById db t.payload.userId = none →
          authenticateToken secret now db (Header.bearer (TokenStr.tok t))
            = GateResult.reject ⟨401, "USER_NOT_FOUND", "User not found"⟩)
        ∧ (∀ u, findById db t.payload.userId = some u →
            authenticateToken secret now db (Header.bearer (TokenStr.tok t))
              = GateResult.ok u t.payload)) := by
  refine ⟨rfl, by simp [authenticateToken], ?_, ?_, ?_, ?_, ?_⟩
  · intro ts hts
    simp only [authenticateToken]
    rw [if_neg hts, if_neg hts]
  · intro k hk
    simp only [authenticateToken]
    rw [if_neg (by simp)]
    simp [authGateAfterExtract, isValidTokenFormat, hk]
  · intro t hsig hexp
    simp only [authenticateToken]
    rw [if_neg (by simp)]
    simp only [authGateAfterExtract, isValidTokenFormat, Bool.not_true, Bool.false_eq_true,
      if_false]
    rw [show verifyToken secret now (TokenStr.tok t) = Except.error "Token has expired" by
      simp only [verifyToken]
      rw [if_neg (by simp [hsig]), if_pos hexp]]
    have : stringIncludes "Token has expired" "expired" = true := by decide
    simp [this]
  · intro t hsig
    simp only [authenticateToken]
    rw [if_neg (by simp)]
    simp only [authGateAfterExtract, isValidTokenFormat, Bool.not_true, Bool.false_eq_true,
      if_false]
    rw [show verifyToken secret now (TokenStr.tok t) = Except.error "Invalid token" by
      simp only [verifyToken]
      rw [if_pos hsig]]
    have : stringIncludes "Invalid token" "expired" = false := by decide
    simp [this]
  · intro t hsig hexp haud hiss hty
    have hver : verifyToken secret now (TokenStr.tok t) = Except.ok t.payload := by
      simp only [verifyToken]
      rw [if_neg (by simp [hsig]), if_neg (by omega), if_neg (by simp [haud]),
        if_neg (by simp [hiss])]
    constructor
    · intro hfind
      simp only [authenticateToken]
      rw [if_neg (by simp)]
      simp only [authGateAfterExtract, isValidTokenFormat, Bool.not_true, Bool.false_eq_true,
        if_false, hver]
      simp [hty, hfind]
    · intro u hfind
      simp only [authenticateToken]
      rw [if_neg (by simp)]
      simp only [authGateAfterExtract, isValidTokenFormat, Bool.not_true, Bool.false_eq_true,
        if_false, hver]
      simp [hty, hfind]

/-- Witness for the amended C4 theorem at concrete requests: a
two-segment token, an expired signed token at time 200, and a valid
signed token resolved against a one-user table. -/
theorem auth_gate_decision_sequence_witness :
    ((TokenStr.bad 2 : TokenStr) ≠ TokenStr.empty ∧ (2 : Nat) ≠ 3)
    ∧ authenticateToken "s" 5 [] (Header.bearer (TokenStr.bad 2))
        = GateResult.reject ⟨401, "AUTH_TOKEN_INVALID", "Invalid token format"⟩
    ∧ authenticateToken "s" 200 []
        (Header.bearer (TokenStr.tok
          ⟨⟨1, "user@example.com", "auth", 0, 100, JWT_ISSUER, JWT_AUDIENCE⟩,
           (⟨1, "user@example.com", "auth", 0, 100, JWT_ISSUER, JWT_AUDIENCE⟩, "s")⟩))
        = GateResult.reject ⟨401, "AUTH_TOKEN_EXPIRED", "Token has expired"⟩
    ∧ authenticateToken "s" 5 [⟨1, "user@example.com", "h"⟩]
        (Header.bearer (TokenStr.tok
          ⟨⟨1, "user@example.com", "auth", 0, 100, JWT_ISSUER, JWT_AUDIENCE⟩,
           (⟨1, "user@example.com", "auth", 0, 100, JWT_ISSUER, JWT_AUDIENCE⟩, "s")⟩))
        = GateResult.ok ⟨1, "user@example.com", "h"⟩
            ⟨1, "user@example.com", "auth", 0, 100, JWT_ISSUER, JWT_AUDIENCE⟩ :=
  ⟨⟨by decide, by decide⟩,
   (auth_gate_decision_sequence "s" 5 []).2.2.2.1 2 (by decide),
   (auth_gate_decision_sequence "s" 200 []).2.2.2.2.1 _ rfl (by decide),
   ((auth_gate_decision_sequence "s" 5 [⟨1, "user@example.com", "h"⟩]).2.2.2.2.2.2
      _ rfl (by decide) rfl rfl rfl).2 _ (by decide)⟩

/-- **C5** (corrected), counterexample to the claim as stated: at the
instant the clock equals a token's `exp` claim (here both 100),
`isTokenExpired` returns `false` — the source compares
`decoded.payload.exp < currentTime` strictly, not `now >= expiresAt`. -/
theorem isTokenExpired_at_exp_counterexample :
    isTokenExpired 100
      (TokenStr.tok
        ⟨⟨1, "user@example.com", "auth", 0, 100, JWT_ISSUER, JWT_AUDIENCE⟩,
         (⟨1, "user@example.com", "auth", 0, 100, JWT_ISSUER, JWT_AUDIENCE⟩, "secret")⟩)
      = false := by decide

/-- **C5** (corrected), amended: `isTokenExpired` decides expiry by the
strict comparison `exp < now` — it returns true exactly when the clock
is strictly past `exp` (so false at the instant `now = exp`) — and
returns true for anything undecodable or with a falsy `exp` claim. -/
theorem isTokenExpired_strict (now : Nat) (t : Token) (k : Nat) :
    (t.payload.exp ≠ 0 →
      (isTokenExpired now (TokenStr.tok t) = true ↔ t.payload.exp < now))
    ∧ (t.payload.exp = 0 → isTokenExpired now (TokenStr.tok t) = true)
    ∧ isTokenExpired now TokenStr.empty = true
    ∧ isTokenExpired now (TokenStr.bad k) = true := by
  refine ⟨?_, ?_, rfl, rfl⟩
  · intro h
    simp [isTokenExpired, decodeToken, h]
  · intro h
    simp [isTokenExpired, decodeToken, h]

/-- Witness for the amended C5 theorem at clock 101 and a token with
`exp = 100`: expired strictly after `exp`. -/
theorem isTokenExpired_strict_witness :
    (100 : Nat) ≠ 0
    ∧ isTokenExpired 101
        (TokenStr.tok
          ⟨⟨1, "user@example.com", "auth", 0, 100, JWT_ISSUER, JWT_AUDIENCE⟩,
           (⟨1, "user@example.com", "auth", 0, 100, JWT_ISSUER, JWT_AUDIENCE⟩, "secret")⟩)
        = true :=
  ⟨by decide,
   ((isTokenExpired_strict 101
      ⟨⟨1, "user@example.com", "auth", 0, 100, JWT_ISSUER, JWT_AUDIENCE⟩,
       (⟨1, "user@example.com", "auth", 0, 100, JWT_ISSUER, JWT_AUDIENCE⟩, "secret")⟩ 0).1
      (by decide)).mpr (by decide)⟩

/-- **C6** (corrected), counterexample to the claim as stated: a
structurally well-formed token whose signature was made with a different
secret fails verification ("Invalid token"), yet
`getTokenRemainingTime` — which decodes without any signature check —
returns its full positive remaining time. -/
theorem remaining_time_bad_signature_counterexample :
    verifyToken "secret" 0
      (TokenStr.tok
        ⟨⟨1, "user@example.com", "auth", 0, 1000, JWT_ISSUER, JWT_AUDIENCE⟩,
         (⟨1, "user@example.com", "auth", 0, 1000, JWT_ISSUER, JWT_AUDIENCE⟩,
          "other-secret")⟩)
      = Except.error "Invalid token"
    ∧ getTokenRemainingTime 0
        (TokenStr.tok
          ⟨⟨1, "user@example.com", "auth", 0, 1000, JWT_ISSUER, JWT_AUDIENCE⟩,
           (⟨1, "user@example.com", "auth", 0, 1000, JWT_ISSUER, JWT_AUDIENCE⟩,
            "other-secret")⟩)
        = 1000 := by
  exact ⟨by rfl, by decide⟩

/-- **C6** (corrected), amended: `getTokenRemainingTime` always returns
a non-negative integer; it returns 0 for anything structurally
undecodable, for a falsy `exp` claim, and for any decodable token whose
expiry has passed — but it never checks the signature, so a well-formed
forged token with a future `exp` yields a positive remaining time. -/
theorem remaining_time_nonneg (now : Nat) (s : TokenStr) (k : Nat) (t : Token) :
    0 ≤ getTokenRemainingTime now s
    ∧ getTokenRemainingTime now TokenStr.empty = 0
    ∧ getTokenRemainingTime now (TokenStr.bad k) = 0
    ∧ (t.payload.exp ≤ now → getTokenRemainingTime now (TokenStr.tok t) = 0) := by
  refine ⟨?_, rfl, rfl, ?_⟩
  · cases s with
    | empty => simp [getTokenRemainingTime, decodeToken]
    | bad k' => simp [getTokenRemainingTime, decodeToken]
    | tok t' =>
      simp only [getTokenRemainingTime, decodeToken]
      by_cases h : t'.payload.exp = 0
      · simp [h]
      · simp [h, le_max_left]
  · intro h
    simp only [getTokenRemainingTime, decodeToken]
    by_cases h0 : t.payload.exp = 0
    · simp [h0]
    · simp only [h0, if_false]
      omega

/-- Witness for the amended C6 theorem at clock 50 and an expired token
with `exp = 40`. -/
theorem remaining_time_nonneg_witness :
    (40 : Nat) ≤ 50
    ∧ getTokenRemainingTime 50
        (TokenStr.tok
          ⟨⟨1, "user@example.com", "auth", 0, 40, JWT_ISSUER, JWT_AUDIENCE⟩,
           (⟨1, "user@example.com", "auth", 0, 40, JWT_ISSUER, JWT_AUDIENCE⟩, "s")⟩)
        = 0 :=
  ⟨by decide,
   (remaining_time_nonneg 50 TokenStr.empty 0
      ⟨⟨1, "user@example.com", "auth", 0, 40, JWT_ISSUER, JWT_AUDIENCE⟩,
       (⟨1, "user@example.com", "auth", 0, 40, JWT_ISSUER, JWT_AUDIENCE⟩, "s")⟩).2.2.2
     (by decide)⟩

theorem checkRateLimit_fresh (s : RateStore) (key : String) (now maxA w : Nat)
    (hget : storeGet s key = none) (hmax : 0 < maxA) :
    checkRateLimit s now key maxA w
      = (storeSet s key ⟨1, now + w⟩, ⟨true, maxA - 1, now + w, 0⟩) := by
  have h1 : ¬ now > now + w := by omega
  have h2 : ¬ 0 ≥ maxA := by omega
  simp [checkRateLimit, hget, h1, h2]

theorem checkRateLimit_step (s : RateStore) (key : String) (now maxA w n rt : Nat)
    (hget : storeGet s key = some ⟨n, rt⟩) (hwin : now ≤ rt) (hlt : n < maxA) :
    checkRateLimit s now key maxA w
      = (storeSet s key ⟨n + 1, rt⟩, ⟨true, maxA - (n + 1), rt, 0⟩) := by
  have h1 : ¬ now > rt := by omega
  have h2 : ¬ n ≥ maxA := by omega
  simp [checkRateLimit, hget, h1, h2]

theorem checkRateLimit_denied (s : RateStore) (key : String) (now maxA w n rt : Nat)
    (hget : storeGet s key = some ⟨n, rt⟩) (hwin : now ≤ rt) (hge : maxA ≤ n) :
    checkRateLimit s now key maxA w
      = (storeSet s key ⟨n, rt⟩, ⟨false, 0, rt, (rt - now + 999) / 1000⟩) := by
  have h1 : ¬ now > rt := by omega
  have h2 : n ≥ maxA := by omega
  simp [checkRateLimit, hget, h1, h2]

/-- **C3** (corrected), counterexample to the claim as stated: for the
fresh key, maxAttempts 5 and a 1000 ms window opened at time 0, five
calls at time 0 are allowed; the sixth call at time 1000 — still within
the window, since the lazy reset fires only when `now > resetTime` — is
denied, but with `retryAfter = Math.ceil((1000 - 1000) / 1000) = 0`,
not strictly greater than 0. -/
theorem rate_limit_boundary_counterexample :
    (checkRateLimit (checkRateLimit (checkRateLimit (checkRateLimit (checkRateLimit
        (checkRateLimit [] 0 "login:1.2.3.4" 5 1000).1
        0 "login:1.2.3.4" 5 1000).1
        0 "login:1.2.3.4" 5 1000).1
        0 "login:1.2.3.4" 5 1000).1
        0 "login:1.2.3.4" 5 1000).1
        1000 "login:1.2.3.4" 5 1000).2
      = ⟨false, 0, 1000, 0⟩ := by decide

/-- **C3** (corrected), amended: for a fresh key and maxAttempts 5, five
calls within the window are allowed with remaining 4, 3, 2, 1, 0; the
sixth call within the window is denied, with
`retryAfter = ceil((windowResetAt − now)/1000)` strictly positive when
it happens strictly before `windowResetAt` (and 0 at the exact reset
instant); after `resetRateLimit` the next call is allowed with
remaining 4. -/
theorem rate_limit_counting (s0 : RateStore) (key : String)
    (w t1 t2 t3 t4 t5 t6 t7 : Nat)
    (hfresh : storeGet s0 key = none)
    (h2 : t2 ≤ t1 + w) (h3 : t3 ≤ t1 + w) (h4 : t4 ≤ t1 + w)
    (h5 : t5 ≤ t1 + w) (h6 : t6 ≤ t1 + w) :
    (checkRateLimit s0 t1 key 5 w).2 = ⟨true, 4, t1 + w, 0⟩
    ∧ (checkRateLimit (checkRateLimit s0 t1 key 5 w).1 t2 key 5 w).2
        = ⟨true, 3, t1 + w, 0⟩
    ∧ (checkRateLimit (checkRateLimit (checkRateLimit s0 t1 key 5 w).1 t2 key 5 w).1
        t3 key 5 w).2 = ⟨true, 2, t1 + w, 0⟩
    ∧ (checkRateLimit (checkRateLimit (checkRateLimit (checkRateLimit s0 t1 key 5 w).1
        t2 key 5 w).1 t3 key 5 w).1 t4 key 5 w).2 = ⟨true, 1, t1 + w, 0⟩
    ∧ (checkRateLimit (checkRateLimit (checkRateLimit (checkRateLimit
        (checkRateLimit s0 t1 key 5 w).1 t2 key 5 w).1 t3 key 5 w).1 t4 key 5 w).1
        t5 key 5 w).2 = ⟨true, 0, t1 + w, 0⟩
    ∧ (checkRateLimit (checkRateLimit (checkRateLimit (checkRateLimit (checkRateLimit
        (checkRateLimit s0 t1 key 5 w).1 t2 key 5 w).1 t3 key 5 w).1 t4 key 5 w).1
        t5 key 5 w).1 t6 key 5 w).2
        = ⟨false, 0, t1 + w, (t1 + w - t6 + 999) / 1000⟩
    ∧ (t6 < t1 + w →
        0 < (checkRateLimit (checkRateLimit (checkRateLimit (checkRateLimit
          (checkRateLimit (checkRateLimit s0 t1 key 5 w).1 t2 key 5 w).1 t3 key 5 w).1
          t4 key 5 w).1 t5 key 5 w).1 t6 key 5 w).2.retryAfter)
    ∧ (checkRateLimit
        (resetRateLimit
          (checkRateLimit (checkRateLimit (checkRateLimit (checkRateLimit (checkRateLimit
            (checkRateLimit s0 t1 key 5 w).1 t2 key 5 w).1 t3 key 5 w).1 t4 key 5 w).1
            t5 key 5 w).1 t6 key 5 w).1 key)
        t7 key 5 w).2 = ⟨true, 4, t7 + w, 0⟩ := by
  have e1 := checkRateLimit_fresh s0 key t1 5 w hfresh (by omega)
  have g1 : storeGet (checkRateLimit s0 t1 key 5 w).1 key = some ⟨1, t1 + w⟩ := by
    rw [e1]; exact storeGet_set_self _ _ _
  have e2 := checkRateLimit_step _ key t2 5 w 1 (t1 + w) g1 h2 (by omega)
  have g2 : storeGet (checkRateLimit (checkRateLimit s0 t1 key 5 w).1 t2 key 5 w).1 key
      = some ⟨2, t1 + w⟩ := by
    rw [e2]; exact storeGet_set_self _ _ _
  have e3 := checkRateLimit_step _ key t3 5 w 2 (t1 + w) g2 h3 (by omega)
  have g3 : storeGet (checkRateLimit (checkRateLimit (checkRateLimit s0 t1 key 5 w).1
      t2 key 5 w).1 t3 key 5 w).1 key = some ⟨3, t1 + w⟩ := by
    rw [e3]; exact storeGet_set_self _ _ _
  have e4 := checkRateLimit_step _ key t4 5 w 3 (t1 + w) g3 h4 (by omega)
  have g4 : storeGet (checkRateLimit (checkRateLimit (checkRateLimit (checkRateLimit
      s0 t1 key 5 w).1 t2 key 5 w).1 t3 key 5 w).1 t4 key 5 w).1 key
      = some ⟨4, t1 + w⟩ := by
    rw [e4]; exact storeGet_set_self _ _ _
  have e5 := checkRateLimit_step _ key t5 5 w 4 (t1 + w) g4 h5 (by omega)
  have g5 : storeGet (checkRateLimit (checkRateLimit (checkRateLimit (checkRateLimit
      (checkRateLimit s0 t1 key 5 w).1 t2 key 5 w).1 t3 key 5 w).1 t4 key 5 w).1
      t5 key 5 w).1 key = some ⟨5, t1 + w⟩ := by
    rw [e5]; exact storeGet_set_self _ _ _
  have e6 := checkRateLimit_denied _ key t6 5 w 5 (t1 + w) g5 h6 (by omega)
  have gdel : storeGet
      (resetRateLimit
        (checkRateLimit (checkRateLimit (checkRateLimit (checkRateLimit (checkRateLimit
          (checkRateLimit s0 t1 key 5 w).1 t2 key 5 w).1 t3 key 5 w).1 t4 key 5 w).1
          t5 key 5 w).1 t6 key 5 w).1 key)
      key = none := storeGet_delete_self _ _
  have e7 := checkRateLimit_fresh _ key t7 5 w gdel (by omega)
  refine ⟨by rw [e1], by rw [e2], by rw [e3], by rw [e4], by rw [e5], by rw [e6], ?_, by rw [e7]⟩
  intro hlt
  rw [e6]
  simp only []
  have : 1 ≤ t1 + w - t6 := by omega
  calc 0 < (1 + 999) / 1000 := by omega
    _ ≤ (t1 + w - t6 + 999) / 1000 := Nat.div_le_div_right (by omega)

/-- Witness for the amended C3 theorem: fresh key "k", window 1000 ms,
five calls at time 0, the sixth at time 0, a reset, and a call at
time 50. -/
theorem rate_limit_counting_witness :
    storeGet [] "k" = none
    ∧ ((checkRateLimit [] 0 "k" 5 1000).2 = ⟨true, 4, 1000, 0⟩
      ∧ (checkRateLimit (checkRateLimit [] 0 "k" 5 1000).1 0 "k" 5 1000).2
          = ⟨true, 3, 1000, 0⟩
      ∧ (checkRateLimit (checkRateLimit (checkRateLimit [] 0 "k" 5 1000).1 0 "k" 5 1000).1
          0 "k" 5 1000).2 = ⟨true, 2, 1000, 0⟩
      ∧ (checkRateLimit (checkRateLimit (checkRateLimit (checkRateLimit [] 0 "k" 5 1000).1
          0 "k" 5 1000).1 0 "k" 5 1000).1 0 "k" 5 1000).2 = ⟨true, 1, 1000, 0⟩
      ∧ (checkRateLimit (checkRateLimit (checkRateLimit (checkRateLimit
          (checkRateLimit [] 0 "k" 5 1000).1 0 "k" 5 1000).1 0 "k" 5 1000).1 0 "k" 5 1000).1
          0 "k" 5 1000).2 = ⟨true, 0, 1000, 0⟩
      ∧ (checkRateLimit (checkRateLimit (checkRateLimit (checkRateLimit (checkRateLimit
          (checkRateLimit [] 0 "k" 5 1000).1 0 "k" 5 1000).1 0 "k" 5 1000).1 0 "k" 5 1000).1
          0 "k" 5 1000).1 0 "k" 5 1000).2
          = ⟨false, 0, 1000, (1000 - 0 + 999) / 1000⟩
      ∧ ((0 : Nat) < 1000 →
          0 < (checkRateLimit (checkRateLimit (checkRateLimit (checkRateLimit
            (checkRateLimit (checkRateLimit [] 0 "k" 5 1000).1 0 "k" 5 1000).1
            0 "k" 5 1000).1 0 "k" 5 1000).1 0 "k" 5 1000).1 0 "k" 5 1000).2.retryAfter)
      ∧ (checkRateLimit
          (resetRateLimit
            (checkRateLimit (checkRateLimit (checkRateLimit (checkRateLimit (checkRateLimit
              (checkRateLimit [] 0 "k" 5 1000).1 0 "k" 5 1000).1 0 "k" 5 1000).1
              0 "k" 5 1000).1 0 "k" 5 1000).1 0 "k" 5 1000).1 "k")
          50 "k" 5 1000).2 = ⟨true, 4, 1050, 0⟩) :=
  ⟨rfl,
   rate_limit_counting [] "k" 1000 0 0 0 0 0 0 50 rfl (by decide) (by decide) (by decide)
     (by decide) (by decide)⟩

/-- **C9** (corrected), counterexample to the claim as stated: a first
create with `'Test@Example.com'` stores the email exactly as passed (not
lowercased), and a second create with `'test@example.com'` — equal up to
letter case — succeeds and creates a second record instead of failing
with the already-exists error: the pre-check lowercases only the probe
and compares it to the stored emails case-sensitively. -/
theorem create_case_variant_counterexample :
    createUser [] "Test@Example.com" "secret1"
      = Except.ok (⟨1, "Test@Example.com", "bcrypt$secret1"⟩,
                   [⟨1, "Test@Example.com", "bcrypt$secret1"⟩])
    ∧ createUser [⟨1, "Test@Example.com", "bcrypt$secret1"⟩] "test@example.com" "secret1"
      = Except.ok (⟨2, "test@example.com", "bcrypt$secret1"⟩,
                   [⟨1, "Test@Example.com", "bcrypt$secret1"⟩,
                    ⟨2, "test@example.com", "bcrypt$secret1"⟩]) := by
  exact ⟨by rfl, by rfl⟩

/-- **C9** (corrected), amended: `User.create` stores the email exactly
as passed (normalization to lowercase and trimming is done by the
register route before the call), and its duplicate pre-check compares
the lowercased probe to the stored emails by exact string equality — so
whenever some stored record's email equals the lowercase of the
requested email (in particular whenever the existing record was created
through the register route and the new email differs only in letter
case), the second create fails with the already-exists error. -/
theorem createUser_email_handling (db : List User) (e pw : String) :
    (∀ u db', createUser db e pw = Except.ok (u, db') →
      u.email = e ∧ db' = db ++ [u])
    ∧ (isValidEmail e = true → 6 ≤ pw.length →
        (∃ u ∈ db, u.email = toLowerStr e) →
        createUser db e pw = Except.error "User with this email already exists") := by
  constructor
  · intro u db' h
    unfold createUser at h
    split at h
    · simp at h
    · split at h
      · simp at h
      · split at h
        · simp at h
        · split at h
          · simp at h
          · split at h
            · simp at h
            · simp only [Except.ok.injEq, Prod.mk.injEq] at h
              obtain ⟨hu, hdb⟩ := h
              subst hu
              subst hdb
              exact ⟨rfl, rfl⟩
  · intro hv hpw hmem
    have he : e ≠ "" := by
      rintro rfl
      rw [show isValidEmail "" = false from rfl] at hv
      cases hv
    have hpw' : pw ≠ "" := by
      rintro rfl
      simp at hpw
    have hfind : (findByEmailM db e).isSome := by
      rw [findByEmailM, if_neg he, List.find?_isSome]
      obtain ⟨u, hu, heq⟩ := hmem
      exact ⟨u, hu, by simp [heq]⟩
    obtain ⟨v, hv'⟩ := Option.isSome_iff_exists.mp hfind
    unfold createUser
    rw [if_neg (by simp [he, hpw'])]
    rw [if_neg (by simp [hv])]
    rw [if_neg (by omega)]
    rw [hv']

/-- Witness for the amended C9 theorem: a create into the empty store
returns the email exactly as passed, and a create of
`'Test@Example.com'` against a store holding `'test@example.com'`
(the register route's normalized form) fails with already-exists. -/
theorem createUser_email_handling_witness :
    (createUser [] "user@example.com" "secret1"
      = Except.ok (⟨1, "user@example.com", "bcrypt$secret1"⟩,
                   [⟨1, "user@example.com", "bcrypt$secret1"⟩])
     → (⟨1, "user@example.com", "bcrypt$secret1"⟩ : User).email = "user@example.com"
       ∧ [(⟨1, "user@example.com", "bcrypt$secret1"⟩ : User)]
         = [] ++ [⟨1, "user@example.com", "bcrypt$secret1"⟩])
    ∧ isValidEmail "Test@Example.com" = true
    ∧ 6 ≤ ("secret1" : String).length
    ∧ (∃ u ∈ [(⟨1, "test@example.com", "h"⟩ : User)],
        u.email = toLowerStr "Test@Example.com")
    ∧ createUser [⟨1, "test@example.com", "h"⟩] "Test@Example.com" "secret1"
      = Except.error "User with this email already exists" :=
  ⟨(createUser_email_handling [] "user@example.com" "secret1").1 _ _,
   by decide, by decide, by decide,
   (createUser_email_handling [⟨1, "test@example.com", "h"⟩] "Test@Example.com"
      "secret1").2 (by decide) (by decide) (by decide)⟩

/-- **C10** (confirmed): the ownership gate answers 401
`AUTH_TOKEN_MISSING` when `req.user` or `req.token` is absent; with an
authenticated user it compares `parseInt` of the `userId`/`id` path
parameter against the user's id under strict inequality, so an absent or
`NaN`-parsing parameter is a mismatch answered 403
`AUTH_CREDENTIALS_INVALID`; it never answers a 400 validation error. -/
theorem ownership_gate_nan_mismatch :
    (∀ tok p1 p2, requireOwnership none tok p1 p2
      = Except.error ⟨401, "AUTH_TOKEN_MISSING", "Authentication required"⟩)
    ∧ (∀ u p1 p2, requireOwnership (some u) false p1 p2
      = Except.error ⟨401, "AUTH_TOKEN_MISSING", "Authentication required"⟩)
    ∧ (∀ u s p2, s ≠ "" → jsParseInt s = none →
        requireOwnership (some u) true (some s) p2
          = Except.error ⟨403, "AUTH_CREDENTIALS_INVALID",
              "Access denied: insufficient permissions"⟩)
    ∧ (∀ u s, jsParseInt s = none →
        requireOwnership (some u) true none (some s)
          = Except.error ⟨403, "AUTH_CREDENTIALS_INVALID",
              "Access denied: insufficient permissions"⟩)
    ∧ (∀ u, requireOwnership (some u) true none none
        = Except.error ⟨403, "AUTH_CREDENTIALS_INVALID",
            "Access denied: insufficient permissions"⟩)
    ∧ (∀ ru tok p1 p2 e, requireOwnership ru tok p1 p2 = Except.error e →
        e.status ≠ 400) := by
  refine ⟨fun tok p1 p2 => rfl, fun u p1 p2 => rfl, ?_, ?_, fun u => rfl, ?_⟩
  · intro u s p2 hs hnan
    simp [requireOwnership, hs, hnan]
  · intro u s hnan
    simp [requireOwnership, hnan]
  · intro ru tok p1 p2 e h
    unfold requireOwnership at h
    dsimp only [] at h
    repeat' split at h
    all_goals
      first
      | (simp only [Except.error.injEq] at h
         subst h
         decide)
      | simp at h

/-- Witness for C10 at a concrete user (id 7) and the non-numeric path
parameter "abc". -/
theorem ownership_gate_nan_mismatch_witness :
    ("abc" : String) ≠ "" ∧ jsParseInt "abc" = none
    ∧ requireOwnership (some ⟨7, "user@example.com", "h"⟩) true (some "abc") none
      = Except.error ⟨403, "AUTH_CREDENTIALS_INVALID",
          "Access denied: insufficient permissions"⟩ :=
  ⟨by decide, by decide,
   ownership_gate_nan_mismatch.2.2.1 ⟨7, "user@example.com", "h"⟩ "abc" none
     (by decide) (by decide)⟩
